import Mathlib

/-!
Verification development for the orbital-propagation and collision-risk
module of the repository (sat-sys), a shallow embedding of
`src/utils/SatelliteSimulator.ts`.

The source computes with JavaScript numbers; the embedding is generic over a
linear ordered field `α`, with the transcendental library functions
(`Math.sin`, `Math.cos`, `Math.atan2`, `Math.sqrt`, `Math.PI`) abstracted as
a record of operations `MathOps α`.  All structural and algebraic claims are
proved for every choice of `α` and of the operations; concrete evaluations
instantiate `α := ℚ` with concrete operations.  The one behaviour that
genuinely depends on IEEE-754 special values (division by a zero velocity
magnitude in the maneuver routine) is modelled separately with the `JSNum`
type below, which carries `NaN` and the two infinities.

Only the non-TLE path of the simulator is embedded: every claim under
consideration is scoped to simulators initialized from explicit orbital
elements, and the TLE path delegates wholesale to the external satellite.js
library.
-/

namespace SatSim

/-- A 3-vector, the simulator's position/velocity representation. -/
structure Vec3 (α : Type*) where
  x : α
  y : α
  z : α
deriving DecidableEq

/-- The transcendental operations of the JavaScript `Math` library, abstracted. -/
structure MathOps (α : Type*) where
  sin : α → α
  cos : α → α
  atan2 : α → α → α
  sqrt : α → α
  pi : α

/-- The `OrbitType` union of `types/Satellite.ts`. -/
inductive OrbitType where
  | LEO
  | Polar
  | GEO
  | MEO
deriving DecidableEq

/-- The fields of the `Satellite` interface that the simulator reads
(`id`, `name`, `status`, display and real-time fields are never read by
`SatelliteSimulator`; the `tle` field selects the external satellite.js
path, which is outside this embedding). -/
structure Satellite (α : Type*) where
  orbitType : OrbitType
  altitude : α
  inclination : α
  velocity : α
  eccentricity : Option α
  argumentOfPeriapsis : Option α
  rightAscensionOfAscendingNode : Option α
  meanAnomaly : Option α
deriving DecidableEq

/-- `Partial<Satellite>` restricted to the fields the simulator reads: a
field that is `some` is present in the partial object and overrides the
base satellite on merge (JavaScript object spread). -/
structure SatellitePatch (α : Type*) where
  orbitType : Option OrbitType
  altitude : Option α
  inclination : Option α
  velocity : Option α
  eccentricity : Option α
  argumentOfPeriapsis : Option α
  rightAscensionOfAscendingNode : Option α
  meanAnomaly : Option α
deriving DecidableEq

/-- The `parameters` object of a `SuggestedAction` descriptor. -/
structure ActionParameters (α : Type*) where
  deltaV : Option α
  burnDuration : Option α
  newOrbit : Option (SatellitePatch α)

/-- A `SuggestedAction` descriptor; only `parameters` is read by
`executeAction`. -/
structure SuggestedAction (α : Type*) where
  parameters : Option (ActionParameters α)

/-- The record built by `calculateOrbitalElements` (all angles in radians,
distances in km, mean motion in rad/s). -/
structure OrbitalElements (α : Type*) where
  semiMajorAxis : α
  inclination : α
  meanMotion : α
  orbitalPeriod : α
  eccentricity : α
  argumentOfPeriapsis : α
  rightAscensionOfAscendingNode : α
  meanAnomaly : α
deriving DecidableEq

/-- The private state of a `SatelliteSimulator` instance. -/
structure SimState (α : Type*) where
  satellite : Satellite α
  time : α
  position : Vec3 α
  velocity : Vec3 α
  orbitalElements : OrbitalElements α
deriving DecidableEq

variable {α : Type*} [LinearOrderedField α]

/-- JavaScript `a || d` for an optional numeric `a`: both a missing value and
a (falsy) zero fall back to the default. -/
def jsOr (o : Option α) (d : α) : α :=
  match o with
  | none => d
  | some v => if v = 0 then d else v

/-- Earth's radius in km, as in the source. -/
def earthRadius (α : Type*) [LinearOrderedField α] : α := 6371

/-- Earth's gravitational parameter in km³/s², the source's `3.986004418e5`. -/
def mu (α : Type*) [LinearOrderedField α] : α := 3986004418 / 10000

/-- `calculateOrbitalElements`: semi-major axis from altitude, period from
Kepler's third law, then orbit-class-specific element defaults. -/
def calculateOrbitalElements (ops : MathOps α) (sat : Satellite α) :
    OrbitalElements α :=
  let semiMajorAxis := sat.altitude + earthRadius α
  let inclinationRad := sat.inclination * ops.pi / 180
  let orbitalPeriod := 2 * ops.pi * ops.sqrt (semiMajorAxis ^ 3 / mu α)
  let meanMotion := 2 * ops.pi / orbitalPeriod
  let base : OrbitalElements α :=
    { semiMajorAxis := semiMajorAxis
      inclination := inclinationRad
      meanMotion := meanMotion
      orbitalPeriod := orbitalPeriod
      eccentricity := 0
      argumentOfPeriapsis := 0
      rightAscensionOfAscendingNode := 0
      meanAnomaly := 0 }
  match sat.orbitType with
  | OrbitType.LEO =>
      { base with
        eccentricity := jsOr sat.eccentricity (1 / 100)
        argumentOfPeriapsis := jsOr sat.argumentOfPeriapsis 0 * ops.pi / 180 }
  | OrbitType.Polar =>
      { base with
        rightAscensionOfAscendingNode :=
          jsOr sat.rightAscensionOfAscendingNode 0 * ops.pi / 180
        meanAnomaly := jsOr sat.meanAnomaly 0 * ops.pi / 180 }
  | _ => base

/-- The Newton-Raphson loop of `solveKeplersEquation`: at each round compute
the residual `f` at the current iterate, stop early when `|f| < 1e-6`,
otherwise take a Newton step; the fuel is the remaining iteration count. -/
def keplerIter (ops : MathOps α) (meanAnomaly eccentricity : α) :
    ℕ → α → α
  | 0, E => E
  | n + 1, E =>
    let f := E - eccentricity * ops.sin E - meanAnomaly
    let fPrime := 1 - eccentricity * ops.cos E
    if |f| < 1 / 1000000 then E
    else keplerIter ops meanAnomaly eccentricity n (E - f / fPrime)

/-- `solveKeplersEquation(meanAnomaly, eccentricity, maxIterations)` with the
source's initial guess `E₀ = M`. -/
def solveKeplersEquation (ops : MathOps α) (meanAnomaly eccentricity : α)
    (maxIterations : ℕ) : α :=
  keplerIter ops meanAnomaly eccentricity maxIterations meanAnomaly

/-- The position formula of `calculatePosition` as a function of the element
set and the (already updated) simulated time: mean anomaly, Kepler solve,
true anomaly, radius, orbital-plane point, and the source's rotation into
Earth-centered inertial coordinates. -/
def positionAt (ops : MathOps α) (el : OrbitalElements α) (time : α) :
    Vec3 α :=
  let currentMeanAnomaly := el.meanAnomaly + el.meanMotion * time
  let eccentricAnomaly :=
    solveKeplersEquation ops currentMeanAnomaly el.eccentricity 10
  let trueAnomaly := 2 * ops.atan2
    (ops.sqrt (1 + el.eccentricity) * ops.sin (eccentricAnomaly / 2))
    (ops.sqrt (1 - el.eccentricity) * ops.cos (eccentricAnomaly / 2))
  let radius := el.semiMajorAxis * (1 - el.eccentricity * ops.cos eccentricAnomaly)
  let xOrbital := radius * ops.cos trueAnomaly
  let yOrbital := radius * ops.sin trueAnomaly
  let cosRAAN := ops.cos el.rightAscensionOfAscendingNode
  let sinRAAN := ops.sin el.rightAscensionOfAscendingNode
  let cosInc := ops.cos el.inclination
  let sinInc := ops.sin el.inclination
  let cosArgP := ops.cos el.argumentOfPeriapsis
  let sinArgP := ops.sin el.argumentOfPeriapsis
  { x := xOrbital * (cosRAAN * cosArgP - sinRAAN * sinArgP * cosInc) -
         yOrbital * (cosRAAN * sinArgP + sinRAAN * cosArgP * cosInc)
    y := xOrbital * (sinRAAN * cosArgP + cosRAAN * sinArgP * cosInc) -
         yOrbital * (sinRAAN * sinArgP - cosRAAN * cosArgP * cosInc)
    z := xOrbital * sinArgP * sinInc + yOrbital * cosArgP * sinInc }

/-- `calculatePosition(timeStep)`: increment the cumulative simulated time,
then recompute and store the position; no other field changes. -/
def calculatePosition (ops : MathOps α) (st : SimState α) (timeStep : α) :
    SimState α :=
  let time := st.time + timeStep
  { st with time := time, position := positionAt ops st.orbitalElements time }

/-- `initializeSimulation` on the non-TLE path: recompute the element set
from the stored satellite, then run `calculatePosition()` with its default
time step of 1. -/
def initSimulation (ops : MathOps α) (st : SimState α) : SimState α :=
  calculatePosition ops
    { st with orbitalElements := calculateOrbitalElements ops st.satellite } 1

/-- The `SatelliteSimulator` constructor (non-TLE path): fields start at
time 0 and zero vectors, then `initializeSimulation` runs. -/
def mkSimulator (ops : MathOps α) (sat : Satellite α) : SimState α :=
  initSimulation ops
    { satellite := sat
      time := 0
      position := { x := 0, y := 0, z := 0 }
      velocity := { x := 0, y := 0, z := 0 }
      orbitalElements := calculateOrbitalElements ops sat }

/-- `reset()`: zero the time and both vectors, then re-run initialization
from the stored satellite. -/
def reset (ops : MathOps α) (st : SimState α) : SimState α :=
  initSimulation ops
    { st with
      time := 0
      position := { x := 0, y := 0, z := 0 }
      velocity := { x := 0, y := 0, z := 0 } }

/-- JavaScript object spread `{ ...sat, ...patch }` on the fields the
simulator reads. -/
def mergeSat (s : Satellite α) (p : SatellitePatch α) : Satellite α :=
  { orbitType := p.orbitType.getD s.orbitType
    altitude := p.altitude.getD s.altitude
    inclination := p.inclination.getD s.inclination
    velocity := p.velocity.getD s.velocity
    eccentricity := match p.eccentricity with
      | some v => some v
      | none => s.eccentricity
    argumentOfPeriapsis := match p.argumentOfPeriapsis with
      | some v => some v
      | none => s.argumentOfPeriapsis
    rightAscensionOfAscendingNode := match p.rightAscensionOfAscendingNode with
      | some v => some v
      | none => s.rightAscensionOfAscendingNode
    meanAnomaly := match p.meanAnomaly with
      | some v => some v
      | none => s.meanAnomaly }

/-- `updateSatellite`: merge the partial satellite into the stored one and
re-run initialization. -/
def updateSatellite (ops : MathOps α) (st : SimState α)
    (p : SatellitePatch α) : SimState α :=
  initSimulation ops { st with satellite := mergeSat st.satellite p }

/-- `executeAction`: fail on a missing parameter object or a falsy `deltaV`
or `burnDuration`; otherwise nudge the velocity magnitude by `ΔV/1000`,
rescale the velocity vector, record the new magnitude on the satellite,
optionally reinitialize from a replacement orbit, and report success. -/
def executeAction (ops : MathOps α) (st : SimState α)
    (action : SuggestedAction α) : Bool × SimState α :=
  match action.parameters with
  | none => (false, st)
  | some params =>
    match params.deltaV, params.burnDuration with
    | some dv, some bd =>
      if dv = 0 ∨ bd = 0 then (false, st)
      else
        let acceleration := dv / bd
        let velocityChange := acceleration * bd
        let velocityMagnitude :=
          ops.sqrt (st.velocity.x ^ 2 + st.velocity.y ^ 2 + st.velocity.z ^ 2)
        let newVelocityMagnitude := velocityMagnitude + velocityChange / 1000
        let scale := newVelocityMagnitude / velocityMagnitude
        let st1 : SimState α :=
          { st with
            velocity :=
              { x := st.velocity.x * scale
                y := st.velocity.y * scale
                z := st.velocity.z * scale }
            satellite := { st.satellite with velocity := newVelocityMagnitude } }
        match params.newOrbit with
        | some orbit => (true, updateSatellite ops st1 orbit)
        | none => (true, st1)
    | _, _ => (false, st)

/-- `calculateDistance` of `OrbitUtils`: Euclidean distance between the two
stored positions, through the library square root. -/
def calculateDistance (ops : MathOps α) (s1 s2 : SimState α) : α :=
  ops.sqrt ((s1.position.x - s2.position.x) ^ 2 +
            (s1.position.y - s2.position.y) ^ 2 +
            (s1.position.z - s2.position.z) ^ 2)

/-- The risk buckets of `predictCollisionRisk`. -/
inductive Risk where
  | low
  | medium
  | high
deriving DecidableEq

/-- The record returned by `predictCollisionRisk`; `minDistance` starts at
`Infinity`, modelled as `⊤` in `WithTop α`. -/
structure CollisionRisk (α : Type*) where
  risk : Risk
  minDistance : WithTop α
  timeToClosestApproach : α
  probability : α
deriving DecidableEq

/-- The sampling loop of `predictCollisionRisk`: each round advances both
simulators by 60 s, measures their distance, and keeps the strictly
smallest distance together with the loop counter `t` at which it was seen
(`t` is 0 on the first round and grows by 60 per round); the fuel is the
number of remaining rounds.  Both final simulator states are returned:
the source mutates its two arguments. -/
def crLoop (ops : MathOps α) :
    ℕ → SimState α → SimState α → α → WithTop α → α →
    SimState α × SimState α × WithTop α × α
  | 0, s1, s2, _, minD, tA => (s1, s2, minD, tA)
  | fuel + 1, s1, s2, t, minD, tA =>
    let s1' := calculatePosition ops s1 60
    let s2' := calculatePosition ops s2 60
    let d := calculateDistance ops s1' s2'
    if (d : WithTop α) < minD then crLoop ops fuel s1' s2' (t + 60) (d : WithTop α) t
    else crLoop ops fuel s1' s2' (t + 60) minD tA

/-- Number of rounds of the source loop `for (t = 0; t < H; t += 60)`:
the count of naturals `n` with `60·n < H`, which is `⌈H/60⌉`. -/
def crFuel [FloorRing α] (timeHorizon : α) : ℕ := ⌈timeHorizon / 60⌉₊

/-- `OrbitUtils.predictCollisionRisk(sat1, sat2, timeHorizon)`: run the
sampling loop from `minDistance = Infinity`, then classify the sampled
minimum distance by the fixed 1 km / 5 km thresholds.  Returns the two
advanced simulator states along with the estimate. -/
def predictCollisionRisk [FloorRing α] (ops : MathOps α)
    (s1 s2 : SimState α) (timeHorizon : α) :
    SimState α × SimState α × CollisionRisk α :=
  let r := crLoop ops (crFuel timeHorizon) s1 s2 0 ⊤ 0
  let minDistance := r.2.2.1
  let rp : Risk × α :=
    if minDistance < (1 : WithTop α) then (Risk.high, 1 / 1000)
    else if minDistance < (5 : WithTop α) then (Risk.medium, 1 / 10000)
    else (Risk.low, 1 / 100000)
  (r.1, r.2.1,
    { risk := rp.1
      minDistance := minDistance
      timeToClosestApproach := r.2.2.2
      probability := rp.2 })

/-- The list of distances the estimator samples: the k-th entry (k = 0, 1,
…) is the distance between the two simulators after k+1 joint 60-second
advances, i.e. at simulated-time offset 60·(k+1) from the states at entry. -/
def sampledDistances (ops : MathOps α) :
    ℕ → SimState α → SimState α → List α
  | 0, _, _ => []
  | fuel + 1, s1, s2 =>
    let s1' := calculatePosition ops s1 60
    let s2' := calculatePosition ops s2 60
    calculateDistance ops s1' s2' :: sampledDistances ops fuel s1' s2'

/-- The minimum of a list of distances, `⊤` when there is none. -/
def listMin : List α → WithTop α
  | [] => ⊤
  | d :: ds => min (d : WithTop α) (listMin ds)

/-- Index of the first entry of `l` attaining `listMin l` (0 on the empty
list). -/
def idxOfFirstMin : List α → ℕ
  | [] => 0
  | d :: ds => if (d : WithTop α) ≤ listMin ds then 0 else idxOfFirstMin ds + 1

/-- The min-scan the sampling loop performs over the sampled distances,
isolated from the state threading: fold with strict improvement, recording
the pre-increment loop time `t` at the improving sample, with `t` growing
by 60 per sample. -/
def minScan : List α → WithTop α → α → α → WithTop α × α
  | [], m, tA, _ => (m, tA)
  | d :: ds, m, tA, t =>
    if (d : WithTop α) < m then minScan ds (d : WithTop α) t (t + 60)
    else minScan ds m tA (t + 60)

/-- Claim C2 rendered literally: the estimator returns the minimum sampled
distance together with the simulated-time offset at which that minimum
occurred — the sample with index `i` (zero-based) is taken at offset
`60·(i+1)`, after the joint advance of that round. -/
def C2Statement [FloorRing α] (ops : MathOps α) (s1 s2 : SimState α)
    (timeHorizon : α) : Prop :=
  (predictCollisionRisk ops s1 s2 timeHorizon).2.2.minDistance =
    listMin (sampledDistances ops (crFuel timeHorizon) s1 s2) ∧
  ∃ i d, (sampledDistances ops (crFuel timeHorizon) s1 s2).get? i = some d ∧
    (d : WithTop α) =
      listMin (sampledDistances ops (crFuel timeHorizon) s1 s2) ∧
    (predictCollisionRisk ops s1 s2 timeHorizon).2.2.timeToClosestApproach =
      60 * ((i : α) + 1)

/-- `k` successive `advance(60)` calls, the estimator's effect on one
simulator. -/
def advanceK (ops : MathOps α) : ℕ → SimState α → SimState α
  | 0, st => st
  | k + 1, st => advanceK ops k (calculatePosition ops st 60)

/-- The spec's Kepler solver, written from its words (claim C1): initial
guess `E₀ = M`; iterate `E ← E − f(E)/f'(E)` with `f(E) = E − e·sin E − M`
and `f'(E) = 1 − e·cos E`; stop when `|f(E)| < 1×10⁻⁶` or after 10
iterations, whichever first. -/
def specKeplerGo (ops : MathOps α) (M e : α) : ℕ → α → α
  | 0, E => E
  | n + 1, E =>
    if |E - e * ops.sin E - M| < 1 / 1000000 then E
    else specKeplerGo ops M e n (E - (E - e * ops.sin E - M) / (1 - e * ops.cos E))

/-- The spec's Kepler solve with its 10-iteration cap. -/
def specKeplerSolve (ops : MathOps α) (M e : α) : α :=
  specKeplerGo ops M e 10 M

/-- The position the spec's advance step list produces at cumulative elapsed
time `t` (claim C1): `M = M₀ + meanMotion·t`; `E` from the Kepler solve;
`ν = 2·atan2(√(1+e)·sin(E/2), √(1−e)·cos(E/2))`; `r = a·(1 − e·cos E)`;
orbital-plane point `(r·cos ν, r·sin ν)`; then the stated 3-1-3 rotation by
RAAN `Ω`, inclination `i`, and argument of periapsis `ω`. -/
def specAdvancePosition (ops : MathOps α) (el : OrbitalElements α) (t : α) :
    Vec3 α :=
  let M := el.meanAnomaly + el.meanMotion * t
  let E := specKeplerSolve ops M el.eccentricity
  let nu := 2 * ops.atan2
    (ops.sqrt (1 + el.eccentricity) * ops.sin (E / 2))
    (ops.sqrt (1 - el.eccentricity) * ops.cos (E / 2))
  let r := el.semiMajorAxis * (1 - el.eccentricity * ops.cos E)
  let xOrb := r * ops.cos nu
  let yOrb := r * ops.sin nu
  let cosO := ops.cos el.rightAscensionOfAscendingNode
  let sinO := ops.sin el.rightAscensionOfAscendingNode
  let cosi := ops.cos el.inclination
  let sini := ops.sin el.inclination
  let cosw := ops.cos el.argumentOfPeriapsis
  let sinw := ops.sin el.argumentOfPeriapsis
  { x := xOrb * (cosO * cosw - sinO * sinw * cosi) -
         yOrb * (cosO * sinw + sinO * cosw * cosi)
    y := xOrb * (sinO * cosw + cosO * sinw * cosi) -
         yOrb * (sinO * sinw - cosO * cosw * cosi)
    z := xOrb * sinw * sini + yOrb * cosw * sini }

/-- A JavaScript-falsy optional number: missing, or present and zero. -/
def jsFalsy (o : Option α) : Prop := o = none ∨ o = some 0

/-- Claim C4's failure condition as stated: the descriptor lacks BOTH a
velocity-change magnitude and a burn duration (a missing parameter object
lacks both). -/
def lacksBothBurnParams (act : SuggestedAction α) : Prop :=
  ∀ p, act.parameters = some p → jsFalsy p.deltaV ∧ jsFalsy p.burnDuration

/-- The failure condition the code implements: the parameter object is
missing, or EITHER of deltaV and burnDuration is falsy. -/
def lacksEitherBurnParam (act : SuggestedAction α) : Prop :=
  ∀ p, act.parameters = some p → jsFalsy p.deltaV ∨ jsFalsy p.burnDuration

/-- The orbital-state invariant of claim C8: eccentricity in `[0, 1)`,
semi-major axis above Earth's radius, positive mean motion. -/
def ElementsInvariant (el : OrbitalElements α) : Prop :=
  0 ≤ el.eccentricity ∧ el.eccentricity < 1 ∧
  earthRadius α < el.semiMajorAxis ∧ 0 < el.meanMotion

/-- The facts about the abstracted `Math` operations that the invariant
proof needs, true of the real library: `Math.PI` is positive and the square
root of a positive number is positive. -/
def SaneOps (ops : MathOps α) : Prop :=
  0 < ops.pi ∧ ∀ x : α, 0 < x → 0 < ops.sqrt x

/-- The input conditions under which initialization produces the invariant:
positive altitude, and any supplied eccentricity in `[0, 1)`.  The source
itself never validates these. -/
def SatOK (sat : Satellite α) : Prop :=
  0 < sat.altitude ∧ ∀ q, sat.eccentricity = some q → 0 ≤ q ∧ q < 1

section ConcreteInstances

/-- Concrete operations for evaluation: zero sine, unit cosine, zero
atan2, identity square root, and 3 for π. -/
def qOps : MathOps ℚ :=
  { sin := fun _ => 0
    cos := fun _ => 1
    atan2 := fun _ _ => 0
    sqrt := id
    pi := 3 }

/-- Concrete operations whose cosine varies with its argument, so that
propagated positions move over time. -/
def varyOps : MathOps ℚ :=
  { sin := fun _ => 0
    cos := fun x => 1 - x
    atan2 := fun _ _ => 0
    sqrt := id
    pi := 3 }

/-- Concrete operations whose square root maps `0.49` to `0.7` (and any
other argument to 1), for the 0.7 km collision scenario. -/
def lookupOps : MathOps ℚ :=
  { sin := fun _ => 0
    cos := fun _ => 1
    atan2 := fun _ _ => 0
    sqrt := fun x => if x = 49 / 100 then 7 / 10 else 1
    pi := 3 }

/-- A throwaway satellite descriptor. -/
def dummySat : Satellite ℚ :=
  { orbitType := OrbitType.LEO
    altitude := 1
    inclination := 0
    velocity := 0
    eccentricity := none
    argumentOfPeriapsis := none
    rightAscensionOfAscendingNode := none
    meanAnomaly := none }

/-- A propagator state whose position (under `varyOps`) moves as `x = t`:
unit semi-major axis, unit mean motion, eccentricity 1, all angles zero. -/
def cState1 : SimState ℚ :=
  { satellite := dummySat
    time := 0
    position := { x := 0, y := 0, z := 0 }
    velocity := { x := 0, y := 0, z := 0 }
    orbitalElements :=
      { semiMajorAxis := 1
        inclination := 0
        meanMotion := 1
        orbitalPeriod := 6
        eccentricity := 1
        argumentOfPeriapsis := 0
        rightAscensionOfAscendingNode := 0
        meanAnomaly := 0 } }

/-- A propagator state whose position (under `varyOps`) is pinned at
`x = 150`: eccentricity 0. -/
def cState2 : SimState ℚ :=
  { satellite := dummySat
    time := 0
    position := { x := 0, y := 0, z := 0 }
    velocity := { x := 0, y := 0, z := 0 }
    orbitalElements :=
      { semiMajorAxis := 150
        inclination := 0
        meanMotion := 1
        orbitalPeriod := 6
        eccentricity := 0
        argumentOfPeriapsis := 0
        rightAscensionOfAscendingNode := 0
        meanAnomaly := 0 } }

/-- First satellite of the 0.7 km scenario: LEO at 50 km altitude. -/
def wSat1 : Satellite ℚ :=
  { orbitType := OrbitType.LEO
    altitude := 50
    inclination := 0
    velocity := 0
    eccentricity := some (1 / 100)
    argumentOfPeriapsis := none
    rightAscensionOfAscendingNode := none
    meanAnomaly := none }

/-- Second satellite of the 0.7 km scenario: the altitudes differ by
`70/99` km, which after the factor `1 − e = 0.99` puts the two propagated
positions exactly 0.7 km apart under `lookupOps`. -/
def wSat2 : Satellite ℚ :=
  { orbitType := OrbitType.LEO
    altitude := 50 + 70 / 99
    inclination := 0
    velocity := 0
    eccentricity := some (1 / 100)
    argumentOfPeriapsis := none
    rightAscensionOfAscendingNode := none
    meanAnomaly := none }

/-- A Polar satellite with no supplied eccentricity. -/
def polarSat : Satellite ℚ :=
  { orbitType := OrbitType.Polar
    altitude := 800
    inclination := 90
    velocity := 0
    eccentricity := none
    argumentOfPeriapsis := none
    rightAscensionOfAscendingNode := some 30
    meanAnomaly := some 45 }

/-- A structured element set with zero altitude: the source accepts it and
produces a semi-major axis equal to Earth's radius. -/
def zeroAltSat : Satellite ℚ :=
  { orbitType := OrbitType.LEO
    altitude := 0
    inclination := 0
    velocity := 0
    eccentricity := none
    argumentOfPeriapsis := none
    rightAscensionOfAscendingNode := none
    meanAnomaly := none }

/-- A maneuver descriptor carrying a deltaV but no burn duration. -/
def dvOnlyAction : SuggestedAction ℚ :=
  { parameters := some
      { deltaV := some 5
        burnDuration := none
        newOrbit := none } }

end ConcreteInstances

end SatSim

namespace JSModel

/-- A JavaScript number as the maneuver routine sees it: a finite value
(idealized as an exact rational), one of the two infinities, or `NaN`.
Finite arithmetic is exact rather than rounded; the claims settled with
this type depend only on the IEEE-754 special-value rules, not on
rounding. -/
inductive JSNum where
  | fin (q : ℚ)
  | posInf
  | negInf
  | nan
deriving DecidableEq

open JSNum in
/-- IEEE-754 addition on `JSNum`. -/
def add : JSNum → JSNum → JSNum
  | fin a, fin b => fin (a + b)
  | fin _, posInf => posInf
  | fin _, negInf => negInf
  | posInf, fin _ => posInf
  | negInf, fin _ => negInf
  | posInf, posInf => posInf
  | negInf, negInf => negInf
  | posInf, negInf => nan
  | negInf, posInf => nan
  | _, _ => nan

open JSNum in
/-- IEEE-754 multiplication on `JSNum`: in particular `0 × ±∞ = NaN`. -/
def mul : JSNum → JSNum → JSNum
  | fin a, fin b => fin (a * b)
  | fin a, posInf => if a = 0 then nan else if 0 < a then posInf else negInf
  | fin a, negInf => if a = 0 then nan else if 0 < a then negInf else posInf
  | posInf, fin b => if b = 0 then nan else if 0 < b then posInf else negInf
  | negInf, fin b => if b = 0 then nan else if 0 < b then negInf else posInf
  | posInf, posInf => posInf
  | negInf, negInf => posInf
  | posInf, negInf => negInf
  | negInf, posInf => negInf
  | _, _ => nan

open JSNum in
/-- IEEE-754 division on `JSNum` (with `+0` for JavaScript's zero): in
particular `x / 0 = ±∞` for finite nonzero `x`, and `0 / 0 = NaN`. -/
def div : JSNum → JSNum → JSNum
  | fin a, fin b =>
    if b = 0 then (if a = 0 then nan else if 0 < a then posInf else negInf)
    else fin (a / b)
  | fin _, posInf => fin 0
  | fin _, negInf => fin 0
  | posInf, fin b => if 0 ≤ b then posInf else negInf
  | negInf, fin b => if 0 ≤ b then negInf else posInf
  | _, _ => nan

open JSNum in
/-- JavaScript truthiness of a number: `0` and `NaN` are falsy. -/
def truthy : JSNum → Bool
  | fin q => decide (q ≠ 0)
  | nan => false
  | _ => true

open JSNum in
/-- The velocity update of `executeAction` on the float-sensitive path,
over `JSNum` with `Math.sqrt` abstracted (`sqrtJ`): guard on the truthiness
of `deltaV` and `burnDuration`, then `acceleration = ΔV / burn`,
`velocityChange = acceleration × burn`, magnitude via the square root of
the squared components, `newMagnitude = magnitude + velocityChange/1000`,
`scale = newMagnitude / magnitude`, and each velocity component multiplied
by `scale`.  Returns the source's boolean result and the new velocity
components. -/
def executeBurn (sqrtJ : JSNum → JSNum) (vx vy vz dv bd : JSNum) :
    Bool × JSNum × JSNum × JSNum :=
  if truthy dv && truthy bd then
    let acceleration := div dv bd
    let velocityChange := mul acceleration bd
    let velocityMagnitude :=
      sqrtJ (add (add (mul vx vx) (mul vy vy)) (mul vz vz))
    let newVelocityMagnitude :=
      add velocityMagnitude (div velocityChange (fin 1000))
    let scale := div newVelocityMagnitude velocityMagnitude
    (true, mul vx scale, mul vy scale, mul vz scale)
  else (false, vx, vy, vz)

end JSModel

namespace SatSim

variable {α : Type*} [LinearOrderedField α]

/-! Structural lemmas about the embedded operations. -/

@[simp]
theorem calculatePosition_satellite (ops : MathOps α) (st : SimState α)
    (ts : α) : (calculatePosition ops st ts).satellite = st.satellite := rfl

@[simp]
theorem calculatePosition_velocity (ops : MathOps α) (st : SimState α)
    (ts : α) : (calculatePosition ops st ts).velocity = st.velocity := rfl

@[simp]
theorem calculatePosition_orbitalElements (ops : MathOps α) (st : SimState α)
    (ts : α) :
    (calculatePosition ops st ts).orbitalElements = st.orbitalElements := rfl

@[simp]
theorem calculatePosition_time (ops : MathOps α) (st : SimState α) (ts : α) :
    (calculatePosition ops st ts).time = st.time + ts := rfl

@[simp]
theorem calculatePosition_position (ops : MathOps α) (st : SimState α)
    (ts : α) :
    (calculatePosition ops st ts).position =
      positionAt ops st.orbitalElements (st.time + ts) := rfl

@[simp]
theorem advanceK_satellite (ops : MathOps α) (k : ℕ) (st : SimState α) :
    (advanceK ops k st).satellite = st.satellite := by
  induction k generalizing st with
  | zero => rfl
  | succ n ih => simp [advanceK, ih]

@[simp]
theorem advanceK_velocity (ops : MathOps α) (k : ℕ) (st : SimState α) :
    (advanceK ops k st).velocity = st.velocity := by
  induction k generalizing st with
  | zero => rfl
  | succ n ih => simp [advanceK, ih]

@[simp]
theorem advanceK_orbitalElements (ops : MathOps α) (k : ℕ) (st : SimState α) :
    (advanceK ops k st).orbitalElements = st.orbitalElements := by
  induction k generalizing st with
  | zero => rfl
  | succ n ih => simp [advanceK, ih]

@[simp]
theorem advanceK_time (ops : MathOps α) (k : ℕ) (st : SimState α) :
    (advanceK ops k st).time = st.time + 60 * k := by
  induction k generalizing st with
  | zero => simp [advanceK]
  | succ n ih =>
    rw [advanceK, ih, calculatePosition_time]
    push_cast
    ring

theorem advanceK_position (ops : MathOps α) (k : ℕ) (st : SimState α) :
    (advanceK ops (k + 1) st).position =
      positionAt ops st.orbitalElements (st.time + 60 * (k + 1)) := by
  induction k generalizing st with
  | zero => simp [advanceK]
  | succ n ih =>
    rw [advanceK, ih]
    simp only [calculatePosition_orbitalElements, calculatePosition_time]
    congr 1
    push_cast
    ring

/-- The spec's Kepler iteration agrees with the source's. -/
theorem specKeplerGo_eq (ops : MathOps α) (M e : α) :
    ∀ (n : ℕ) (E : α), specKeplerGo ops M e n E = keplerIter ops M e n E := by
  intro n
  induction n with
  | zero => intro E; rfl
  | succ k ih => intro E; simp only [specKeplerGo, keplerIter, ih]

/-- The spec's Kepler solve agrees with the source's 10-iteration call. -/
theorem specKeplerSolve_eq (ops : MathOps α) (M e : α) :
    specKeplerSolve ops M e = solveKeplersEquation ops M e 10 := by
  simp only [specKeplerSolve, solveKeplersEquation, specKeplerGo_eq]

/-- The spec's advance-position formulas agree with the source's. -/
theorem specAdvancePosition_eq (ops : MathOps α) (el : OrbitalElements α)
    (t : α) : specAdvancePosition ops el t = positionAt ops el t := by
  simp only [specAdvancePosition, positionAt, specKeplerSolve_eq]

/-! Lemmas about the collision-estimator loop. -/

theorem listMin_lt_top {l : List α} (h : l ≠ []) : listMin l < ⊤ := by
  rcases l with _ | ⟨d, ds⟩
  · exact absurd rfl h
  · exact lt_of_le_of_lt (min_le_left _ _) (WithTop.coe_lt_top d)

theorem sampledDistances_length (ops : MathOps α) (fuel : ℕ) :
    ∀ s1 s2 : SimState α, (sampledDistances ops fuel s1 s2).length = fuel := by
  induction fuel with
  | zero => intro s1 s2; rfl
  | succ n ih => intro s1 s2; simp [sampledDistances, ih]

theorem idxOfFirstMin_lt_length {l : List α} (h : l ≠ []) :
    idxOfFirstMin l < l.length := by
  induction l with
  | nil => exact absurd rfl h
  | cons d ds ih =>
    rw [idxOfFirstMin]
    by_cases hle : (d : WithTop α) ≤ listMin ds
    · rw [if_pos hle]; simp
    · rw [if_neg hle]
      have hne : ds ≠ [] := by
        intro hnil
        subst hnil
        exact hle le_top
      simpa using Nat.succ_lt_succ (ih hne)

theorem get?_idxOfFirstMin : ∀ l : List α, l ≠ [] →
    ∃ d, l.get? (idxOfFirstMin l) = some d ∧ (d : WithTop α) = listMin l := by
  intro l
  induction l with
  | nil => intro h; exact absurd rfl h
  | cons d ds ih =>
    intro _
    by_cases hle : (d : WithTop α) ≤ listMin ds
    · refine ⟨d, ?_, ?_⟩
      · rw [idxOfFirstMin, if_pos hle]; rfl
      · rw [listMin, min_eq_left hle]
    · have hne : ds ≠ [] := by
        intro hnil
        subst hnil
        exact hle le_top
      rcases ih hne with ⟨v, hv, hvmin⟩
      refine ⟨v, ?_, ?_⟩
      · rw [idxOfFirstMin, if_neg hle]
        simpa using hv
      · rw [listMin, min_eq_right (le_of_lt (not_le.mp hle)), hvmin]

theorem listMin_lt_earlier : ∀ l : List α, ∀ j < idxOfFirstMin l,
    ∀ d, l.get? j = some d → listMin l < (d : WithTop α) := by
  intro l
  induction l with
  | nil => intro j hj; rw [idxOfFirstMin] at hj; omega
  | cons d ds ih =>
    intro j hj v hv
    by_cases hle : (d : WithTop α) ≤ listMin ds
    · rw [idxOfFirstMin, if_pos hle] at hj; omega
    · rw [idxOfFirstMin, if_neg hle] at hj
      have hmin : listMin (d :: ds) = listMin ds :=
        min_eq_right (le_of_lt (not_le.mp hle))
      rcases j with _ | j
      · cases hv
        rw [hmin]
        exact not_le.mp hle
      · rw [hmin]
        exact ih j (by omega) v (by simpa using hv)

theorem minScan_spec : ∀ (l : List α) (m : WithTop α) (tA t : α),
    minScan l m tA t =
      (min (listMin l) m,
        if listMin l < m then t + 60 * (idxOfFirstMin l : α) else tA) := by
  intro l
  induction l with
  | nil =>
    intro m tA t
    simp [minScan, listMin, min_eq_right le_top, not_top_lt]
  | cons d ds ih =>
    intro m tA t
    rw [minScan]
    have hLcons : listMin (d :: ds) = min (d : WithTop α) (listMin ds) := rfl
    by_cases hdm : (d : WithTop α) < m
    · rw [if_pos hdm, ih]
      by_cases hld : listMin ds < (d : WithTop α)
      · have hcond : listMin ds < m := lt_trans hld hdm
        have hidx : idxOfFirstMin (d :: ds) = idxOfFirstMin ds + 1 := by
          rw [idxOfFirstMin, if_neg (not_le.mpr hld)]
        rw [if_pos hld, hLcons, min_eq_right hld.le, hidx, if_pos hcond,
          min_eq_left hld.le, min_eq_left hcond.le]
        simp only [Prod.mk.injEq, true_and]
        push_cast
        ring
      · have hdle : (d : WithTop α) ≤ listMin ds := not_lt.mp hld
        have hidx : idxOfFirstMin (d :: ds) = 0 := by
          rw [idxOfFirstMin, if_pos hdle]
        rw [if_neg hld, hLcons, min_eq_left hdle, hidx, if_pos hdm,
          min_eq_right hdle, min_eq_left hdm.le]
        norm_num
    · rw [if_neg hdm, ih]
      have hmd : m ≤ (d : WithTop α) := not_lt.mp hdm
      have hmin1 : min (min (d : WithTop α) (listMin ds)) m =
          min (listMin ds) m := by
        rw [min_comm (d : WithTop α) (listMin ds), min_assoc,
          min_eq_right hmd]
      have hcond : (min (d : WithTop α) (listMin ds) < m) ↔
          (listMin ds < m) := by
        rw [min_lt_iff]
        constructor
        · rintro (h | h)
          · exact absurd h hdm
          · exact h
        · exact Or.inr
      rw [hLcons, hmin1]
      by_cases hlm : listMin ds < m
      · have hidx : idxOfFirstMin (d :: ds) = idxOfFirstMin ds + 1 := by
          rw [idxOfFirstMin,
            if_neg (not_le.mpr (lt_of_lt_of_le hlm hmd))]
        rw [if_pos hlm, hidx, if_pos (hcond.mpr hlm)]
        simp only [Prod.mk.injEq, true_and]
        push_cast
        ring
      · rw [if_neg hlm, if_neg (fun h => hlm (hcond.mp h))]

theorem crLoop_eq (ops : MathOps α) :
    ∀ (fuel : ℕ) (s1 s2 : SimState α) (t : α) (m : WithTop α) (tA : α),
    crLoop ops fuel s1 s2 t m tA =
      (advanceK ops fuel s1, advanceK ops fuel s2,
        minScan (sampledDistances ops fuel s1 s2) m tA t) := by
  intro fuel
  induction fuel with
  | zero => intros; rfl
  | succ n ih =>
    intro s1 s2 t m tA
    rw [crLoop, sampledDistances, minScan]
    by_cases h : ((calculateDistance ops (calculatePosition ops s1 60)
        (calculatePosition ops s2 60) : α) : WithTop α) < m
    · rw [if_pos h, if_pos h, ih, advanceK, advanceK]
    · rw [if_neg h, if_neg h, ih, advanceK, advanceK]

theorem predict_states [FloorRing α] (ops : MathOps α) (s1 s2 : SimState α)
    (H : α) :
    (predictCollisionRisk ops s1 s2 H).1 = advanceK ops (crFuel H) s1 ∧
    (predictCollisionRisk ops s1 s2 H).2.1 = advanceK ops (crFuel H) s2 := by
  constructor <;> simp [predictCollisionRisk, crLoop_eq]

theorem predict_minDistance [FloorRing α] (ops : MathOps α)
    (s1 s2 : SimState α) (H : α) :
    (predictCollisionRisk ops s1 s2 H).2.2.minDistance =
      listMin (sampledDistances ops (crFuel H) s1 s2) := by
  simp [predictCollisionRisk, crLoop_eq, minScan_spec, min_eq_left le_top]

theorem predict_time [FloorRing α] (ops : MathOps α) (s1 s2 : SimState α)
    (H : α) (h : sampledDistances ops (crFuel H) s1 s2 ≠ []) :
    (predictCollisionRisk ops s1 s2 H).2.2.timeToClosestApproach =
      60 * (idxOfFirstMin (sampledDistances ops (crFuel H) s1 s2) : α) := by
  simp [predictCollisionRisk, crLoop_eq, minScan_spec, listMin_lt_top h]

theorem predict_classification [FloorRing α] (ops : MathOps α)
    (s1 s2 : SimState α) (H : α) :
    ((predictCollisionRisk ops s1 s2 H).2.2.risk,
      (predictCollisionRisk ops s1 s2 H).2.2.probability) =
      if (predictCollisionRisk ops s1 s2 H).2.2.minDistance < 1 then
        (Risk.high, 1 / 1000)
      else if (predictCollisionRisk ops s1 s2 H).2.2.minDistance < 5 then
        (Risk.medium, 1 / 10000)
      else (Risk.low, 1 / 100000) := by
  simp only [predictCollisionRisk]

theorem crFuel_pos [FloorRing α] {H : α} (h : 0 < H) : 0 < crFuel H := by
  rw [crFuel, Nat.ceil_pos]
  positivity

theorem crFuel_mul_succ [FloorRing α] (k : ℕ) :
    crFuel ((60 : α) * ((k : α) + 1)) = k + 1 := by
  rw [crFuel, mul_div_cancel_left₀ _ (by norm_num : (60 : α) ≠ 0)]
  have : ((k : α) + 1) = ((k + 1 : ℕ) : α) := by push_cast; ring
  rw [this, Nat.ceil_natCast]

theorem keplerIter_residual_small (ops : MathOps α) (M e E : α)
    (h : |E - e * ops.sin E - M| < 1 / 1000000) :
    ∀ n, keplerIter ops M e n E = E := by
  intro n
  cases n with
  | zero => rfl
  | succ m =>
    simp only [keplerIter]
    rw [if_pos h]

theorem solveKepler_sin_zero (ops : MathOps α) (hsin : ∀ x, ops.sin x = 0)
    (M e : α) (n : ℕ) : solveKeplersEquation ops M e n = M := by
  rw [solveKeplersEquation]
  apply keplerIter_residual_small
  rw [hsin, mul_zero, sub_zero, sub_self, abs_zero]
  norm_num

/-- With zero sine, unit cosine and zero atan2, the propagated position is
pinned at `(a·(1 − e), 0, 0)` for every time. -/
theorem positionAt_flat (ops : MathOps α) (hsin : ∀ x, ops.sin x = 0)
    (hcos : ∀ x, ops.cos x = 1) (hatan : ∀ y x, ops.atan2 y x = 0)
    (el : OrbitalElements α) (t : α) :
    positionAt ops el t =
      { x := el.semiMajorAxis * (1 - el.eccentricity), y := 0, z := 0 } := by
  have hE := solveKepler_sin_zero ops hsin
    (el.meanAnomaly + el.meanMotion * t) el.eccentricity 10
  simp only [positionAt, hE, hsin, hcos, hatan, Vec3.mk.injEq]
  refine ⟨by ring, by ring, by ring⟩

theorem sampledDistances_const (ops : MathOps α) (p1 p2 : Vec3 α) :
    ∀ (fuel : ℕ) (s1 s2 : SimState α),
    (∀ t, positionAt ops s1.orbitalElements t = p1) →
    (∀ t, positionAt ops s2.orbitalElements t = p2) →
    sampledDistances ops fuel s1 s2 =
      List.replicate fuel (ops.sqrt ((p1.x - p2.x) ^ 2 +
        (p1.y - p2.y) ^ 2 + (p1.z - p2.z) ^ 2)) := by
  intro fuel
  induction fuel with
  | zero => intros; rfl
  | succ n ih =>
    intro s1 s2 h1 h2
    rw [sampledDistances, List.replicate_succ]
    congr 1
    · simp [calculateDistance, h1, h2]
    · refine ih _ _ ?_ ?_
      · intro t; rw [calculatePosition_orbitalElements]; exact h1 t
      · intro t; rw [calculatePosition_orbitalElements]; exact h2 t

theorem listMin_replicate (d : α) : ∀ n : ℕ, 0 < n →
    listMin (List.replicate n d) = (d : WithTop α) := by
  intro n
  induction n with
  | zero => omega
  | succ m ih =>
    intro _
    rw [List.replicate_succ, listMin]
    rcases Nat.eq_zero_or_pos m with hm | hm
    · subst hm
      simp [listMin, min_eq_left le_top]
    · rw [ih hm, min_self]

theorem calculateOrbitalElements_semiMajorAxis (ops : MathOps α)
    (sat : Satellite α) :
    (calculateOrbitalElements ops sat).semiMajorAxis =
      sat.altitude + earthRadius α := by
  rcases h : sat.orbitType <;> simp [calculateOrbitalElements, h]

theorem calculateOrbitalElements_meanMotion (ops : MathOps α)
    (sat : Satellite α) :
    (calculateOrbitalElements ops sat).meanMotion =
      2 * ops.pi /
        (2 * ops.pi * ops.sqrt ((sat.altitude + earthRadius α) ^ 3 / mu α)) := by
  rcases h : sat.orbitType <;> simp [calculateOrbitalElements, h]

theorem calculateOrbitalElements_invariant (ops : MathOps α)
    (hops : SaneOps ops) (sat : Satellite α) (hsat : SatOK sat) :
    ElementsInvariant (calculateOrbitalElements ops sat) := by
  obtain ⟨hpi, hsqrt⟩ := hops
  obtain ⟨halt, hecc⟩ := hsat
  have hR : (0 : α) < earthRadius α := by norm_num [earthRadius]
  have ha : earthRadius α < (calculateOrbitalElements ops sat).semiMajorAxis := by
    rw [calculateOrbitalElements_semiMajorAxis]
    linarith
  have hapos : (0 : α) < sat.altitude + earthRadius α := by linarith
  have hn : (0 : α) < (calculateOrbitalElements ops sat).meanMotion := by
    rw [calculateOrbitalElements_meanMotion]
    have hmu : (0 : α) < mu α := by norm_num [mu]
    have harg : (0 : α) < (sat.altitude + earthRadius α) ^ 3 / mu α := by
      positivity
    have hs := hsqrt _ harg
    have htwo : (0 : α) < 2 * ops.pi := by linarith
    exact div_pos htwo (mul_pos htwo hs)
  have he : 0 ≤ (calculateOrbitalElements ops sat).eccentricity ∧
      (calculateOrbitalElements ops sat).eccentricity < 1 := by
    rcases h : sat.orbitType
    case LEO =>
      simp only [calculateOrbitalElements, h, jsOr]
      rcases hcase : sat.eccentricity with _ | q
      · norm_num
      · by_cases hq : q = 0
        · simp [hq]; norm_num
        · have := hecc q hcase
          simp [hq]
          exact this
    case Polar => simp [calculateOrbitalElements, h]
    case GEO => simp [calculateOrbitalElements, h]
    case MEO => simp [calculateOrbitalElements, h]
  exact ⟨he.1, he.2, ha, hn⟩

theorem mergeSat_velocity_irrelevant (s : Satellite α) (p : SatellitePatch α)
    (v : α) (h : SatOK (mergeSat s p)) :
    SatOK (mergeSat { s with velocity := v } p) := by
  obtain ⟨halt, hecc⟩ := h
  exact ⟨halt, hecc⟩

/-! Claim theorems. -/

/-- Claim C1 (confirmed): on a simulator from explicit orbital elements,
`advance(Δt)` increments the cumulative simulated time by Δt and stores as
the position exactly the value of the spec's step list — mean anomaly
`M₀ + meanMotion·elapsed`, Newton-Raphson Kepler solve from `E₀ = M` with
early stop at `|f| < 1e-6` and a 10-iteration cap, the half-angle atan2
true anomaly, radius `a(1 − e·cos E)`, orbital-plane point, and the stated
3-1-3 rotation; the source's Kepler solver is exactly the spec's. -/
theorem c1_advance_follows_spec (ops : MathOps α) (st : SimState α)
    (dt : α) :
    (calculatePosition ops st dt).time = st.time + dt ∧
    (calculatePosition ops st dt).position =
      specAdvancePosition ops st.orbitalElements (st.time + dt) ∧
    ∀ M e : α, solveKeplersEquation ops M e 10 = specKeplerSolve ops M e := by
  refine ⟨rfl, ?_, ?_⟩
  · rw [specAdvancePosition_eq]; rfl
  · intro M e; rw [specKeplerSolve_eq]

/-- Claim C5 (confirmed): `reset()` rebuilds exactly the state a fresh
construction from the stored satellite produces (elapsed time and the two
vectors zeroed, then initialization re-run), and `reset()` followed by
`advance(0)` reproduces exactly the construction-time position. -/
theorem c5_reset_advance_roundtrip (ops : MathOps α) (st : SimState α)
    (sat : Satellite α) :
    reset ops st = mkSimulator ops st.satellite ∧
    (calculatePosition ops (reset ops st) 0).position =
      (mkSimulator ops st.satellite).position ∧
    (calculatePosition ops (reset ops (mkSimulator ops sat)) 0).position =
      (mkSimulator ops sat).position := by
  refine ⟨rfl, ?_, ?_⟩
  · simp [mkSimulator, initSimulation, reset]
  · simp [mkSimulator, initSimulation, reset]

/-- Claim C4 (corrected): `executeAction` returns `false` and leaves the
state untouched exactly when the parameter object is missing or EITHER of
`deltaV` and `burnDuration` is falsy (missing or zero) — not only when both
are; in particular a descriptor with no parameter object returns `false`
with the state unchanged. -/
theorem c4_failure_exactly_on_missing_either (ops : MathOps α)
    (st : SimState α) (act : SuggestedAction α) :
    ((executeAction ops st act).1 = false ↔ lacksEitherBurnParam act) ∧
    (lacksEitherBurnParam act → (executeAction ops st act).2 = st) ∧
    executeAction ops st { parameters := none } = (false, st) := by
  have hmain : ((executeAction ops st act).1 = false ↔
      lacksEitherBurnParam act) ∧
      (lacksEitherBurnParam act → (executeAction ops st act).2 = st) := by
    rcases act with ⟨_ | p⟩
    · constructor
      · simp [executeAction, lacksEitherBurnParam]
      · intro _; rfl
    · rcases p with ⟨dv?, bd?, no?⟩
      rcases dv? with _ | dv
      · constructor
        · simp [executeAction, lacksEitherBurnParam, jsFalsy]
        · intro _; rfl
      · rcases bd? with _ | bd
        · constructor
          · simp [executeAction, lacksEitherBurnParam, jsFalsy]
          · intro _; rfl
        · by_cases hz : dv = 0 ∨ bd = 0
          · constructor
            · simp only [executeAction, if_pos hz, lacksEitherBurnParam, jsFalsy]
              constructor
              · intro _ p hp
                cases hp
                rcases hz with h0 | h0
                · exact Or.inl (Or.inr (by rw [h0]))
                · exact Or.inr (Or.inr (by rw [h0]))
              · intro _; trivial
            · intro _; simp [executeAction, if_pos hz]
          · have htrue : (executeAction ops st
                ⟨some ⟨some dv, some bd, no?⟩⟩).1 = true := by
              rcases no? with _ | o <;> simp [executeAction, if_neg hz]
            constructor
            · rw [htrue]
              simp only [Bool.true_eq_false, false_iff]
              intro h
              rcases h _ rfl with h' | h' <;>
                rcases h' with h'' | h'' <;> simp_all [jsFalsy]
            · intro h
              exfalso
              rcases h _ rfl with h' | h' <;> rcases h' with h'' | h'' <;>
                simp_all [jsFalsy]
  exact ⟨hmain.1, hmain.2, rfl⟩

/-- Claim C4, counterexample: a descriptor with `deltaV = 5` and no
`burnDuration` does not lack both burn parameters, yet `executeAction`
returns `false` — failure is not characterized by lacking BOTH. -/
theorem c4_counterexample :
    (executeAction qOps cState1 dvOnlyAction).1 = false ∧
    ¬ lacksBothBurnParams dvOnlyAction := by
  constructor
  · rfl
  · intro h
    rcases (h _ rfl).1 with h' | h' <;> simp [dvOnlyAction] at h'

/-- Claim C4, witness: the amended failure condition applied to the
deltaV-only descriptor — `executeAction` returns `false` and leaves state
unchanged. -/
theorem c4_witness :
    (executeAction qOps cState1 dvOnlyAction).1 = false ∧
    (executeAction qOps cState1 dvOnlyAction).2 = cState1 := by
  have hl : lacksEitherBurnParam dvOnlyAction := by
    intro p hp
    cases hp
    right
    left
    rfl
  exact ⟨(c4_failure_exactly_on_missing_either qOps cState1 dvOnlyAction).1.mpr hl,
    (c4_failure_exactly_on_missing_either qOps cState1 dvOnlyAction).2.1 hl⟩

/-- Claim C6 (corrected): initialization defaults eccentricity to 0.01 only
for the LEO orbit class (for Polar, GEO and MEO it is 0); unset angular
elements default to 0; for Polar the RAAN and mean anomaly come from the
caller-supplied degree values (with `x || 0` coalescing) converted to
radians. -/
theorem c6_element_defaults (ops : MathOps α) (sat : Satellite α) :
    (sat.orbitType = OrbitType.LEO →
      (sat.eccentricity = none →
        (calculateOrbitalElements ops sat).eccentricity = 1 / 100) ∧
      (sat.argumentOfPeriapsis = none →
        (calculateOrbitalElements ops sat).argumentOfPeriapsis = 0) ∧
      (calculateOrbitalElements ops sat).rightAscensionOfAscendingNode = 0 ∧
      (calculateOrbitalElements ops sat).meanAnomaly = 0) ∧
    (sat.orbitType = OrbitType.Polar →
      (calculateOrbitalElements ops sat).eccentricity = 0 ∧
      (calculateOrbitalElements ops sat).argumentOfPeriapsis = 0 ∧
      (calculateOrbitalElements ops sat).rightAscensionOfAscendingNode =
        jsOr sat.rightAscensionOfAscendingNode 0 * ops.pi / 180 ∧
      (calculateOrbitalElements ops sat).meanAnomaly =
        jsOr sat.meanAnomaly 0 * ops.pi / 180) ∧
    ((sat.orbitType = OrbitType.GEO ∨ sat.orbitType = OrbitType.MEO) →
      (calculateOrbitalElements ops sat).eccentricity = 0 ∧
      (calculateOrbitalElements ops sat).argumentOfPeriapsis = 0 ∧
      (calculateOrbitalElements ops sat).rightAscensionOfAscendingNode = 0 ∧
      (calculateOrbitalElements ops sat).meanAnomaly = 0) := by
  refine ⟨?_, ?_, ?_⟩
  · intro hL
    refine ⟨?_, ?_, ?_, ?_⟩
    · intro he; simp [calculateOrbitalElements, hL, jsOr, he]
    · intro ha; simp [calculateOrbitalElements, hL, jsOr, ha]
    · simp [calculateOrbitalElements, hL]
    · simp [calculateOrbitalElements, hL]
  · intro hP
    refine ⟨?_, ?_, ?_, ?_⟩ <;> simp [calculateOrbitalElements, hP]
  · intro hG
    rcases hG with h | h <;> simp [calculateOrbitalElements, h]

/-- Claim C6, counterexample: a Polar satellite with no supplied
eccentricity is initialized with eccentricity 0, not the claimed 0.01
default. -/
theorem c6_counterexample :
    (calculateOrbitalElements qOps polarSat).eccentricity = 0 ∧
    (0 : ℚ) ≠ 1 / 100 := by
  constructor
  · rfl
  · norm_num

/-- Claim C6, witness: the amended defaults evaluated on the concrete
Polar satellite (RAAN 30°, mean anomaly 45°, π modelled as 3). -/
theorem c6_witness :
    (calculateOrbitalElements qOps polarSat).eccentricity = 0 ∧
    (calculateOrbitalElements qOps polarSat).argumentOfPeriapsis = 0 ∧
    (calculateOrbitalElements qOps polarSat).rightAscensionOfAscendingNode =
      30 * 3 / 180 ∧
    (calculateOrbitalElements qOps polarSat).meanAnomaly = 45 * 3 / 180 := by
  have h := (c6_element_defaults qOps polarSat).2.1 rfl
  refine ⟨h.1, h.2.1, ?_, ?_⟩
  · rw [h.2.2.1]; norm_num [polarSat, jsOr, qOps]
  · rw [h.2.2.2]; norm_num [polarSat, jsOr, qOps]

/-- Claim C2 (corrected): for a positive horizon the estimator advances both
propagators in 60-second increments and returns the minimum Euclidean
distance over all sampled points, but the returned time value is 60 s LESS
than the simulated-time offset of the minimizing sample: it is `60·i` for
the zero-based index `i` of the earliest sample attaining the minimum,
whereas that sample is taken at offset `60·(i+1)` (all earlier samples are
strictly larger). -/
theorem c2_min_distance_and_offset [FloorRing α] (ops : MathOps α)
    (s1 s2 : SimState α) (H : α) (hH : 0 < H) :
    (predictCollisionRisk ops s1 s2 H).2.2.minDistance =
      listMin (sampledDistances ops (crFuel H) s1 s2) ∧
    ∃ i d, (sampledDistances ops (crFuel H) s1 s2).get? i = some d ∧
      (d : WithTop α) = listMin (sampledDistances ops (crFuel H) s1 s2) ∧
      (predictCollisionRisk ops s1 s2 H).2.2.timeToClosestApproach =
        60 * (i : α) ∧
      ∀ j < i, ∀ e, (sampledDistances ops (crFuel H) s1 s2).get? j = some e →
        listMin (sampledDistances ops (crFuel H) s1 s2) < (e : WithTop α) := by
  have hne : sampledDistances ops (crFuel H) s1 s2 ≠ [] := by
    intro hnil
    have hlen := sampledDistances_length ops (crFuel H) s1 s2
    rw [hnil] at hlen
    have hpos := crFuel_pos (α := α) hH
    simp only [List.length_nil] at hlen
    omega
  refine ⟨predict_minDistance ops s1 s2 H, ?_⟩
  rcases get?_idxOfFirstMin _ hne with ⟨d, hget, hdmin⟩
  exact ⟨idxOfFirstMin _, d, hget, hdmin, predict_time ops s1 s2 H hne,
    fun j hj e he => listMin_lt_earlier _ j hj e he⟩

/-- Claim C2, witness: the corrected statement evaluated on a concrete pair
of propagators over a 240 s horizon. -/
theorem c2_witness :
    (predictCollisionRisk varyOps cState1 cState2 240).2.2.minDistance =
      listMin (sampledDistances varyOps (crFuel (240 : ℚ)) cState1 cState2) ∧
    ∃ i d, (sampledDistances varyOps (crFuel (240 : ℚ)) cState1
        cState2).get? i = some d ∧
      (d : WithTop ℚ) =
        listMin (sampledDistances varyOps (crFuel (240 : ℚ)) cState1 cState2) ∧
      (predictCollisionRisk varyOps cState1 cState2 240).2.2.timeToClosestApproach =
        60 * (i : ℚ) ∧
      ∀ j < i, ∀ e, (sampledDistances varyOps (crFuel (240 : ℚ)) cState1
          cState2).get? j = some e →
        listMin (sampledDistances varyOps (crFuel (240 : ℚ)) cState1 cState2) <
          (e : WithTop ℚ) :=
  c2_min_distance_and_offset varyOps cState1 cState2 240 (by norm_num)

/-- Claim C2, counterexample: on a concrete pair the sampled distances over
a 240 s horizon are 8100, 900, 900, 8100 km (at offsets 60, 120, 180,
240 s), so the minimum occurs at the sample at offset 120 s, yet the
estimator reports a time offset of 60 s — the claim as stated is false. -/
theorem c2_counterexample : ¬ C2Statement varyOps cState1 cState2 240 := by
  have hf : crFuel (240 : ℚ) = 4 := by norm_num [crFuel]
  have hl : sampledDistances varyOps (crFuel (240 : ℚ)) cState1 cState2 =
      [8100, 900, 900, 8100] := by
    rw [hf]
    norm_num [sampledDistances, calculatePosition, positionAt,
      solveKeplersEquation, keplerIter, calculateDistance, varyOps,
      cState1, cState2, dummySat]
  have c9085 : ((900 : ℚ) : WithTop ℚ) ≤ ((8100 : ℚ) : WithTop ℚ) := by
    rw [WithTop.coe_le_coe]; norm_num
  have c8109 : ¬ ((8100 : ℚ) : WithTop ℚ) ≤ ((900 : ℚ) : WithTop ℚ) := by
    rw [WithTop.coe_le_coe]; norm_num
  have hm3 : listMin ([900, 8100] : List ℚ) = ((900 : ℚ) : WithTop ℚ) := by
    simp only [listMin]
    rw [min_eq_left le_top, min_eq_left c9085]
  have hm2 : listMin ([900, 900, 8100] : List ℚ) =
      ((900 : ℚ) : WithTop ℚ) := by
    simp only [listMin]
    rw [min_eq_left le_top, min_eq_left c9085, min_self]
  have hmin : listMin ([8100, 900, 900, 8100] : List ℚ) =
      ((900 : ℚ) : WithTop ℚ) := by
    simp only [listMin]
    rw [min_eq_left le_top, min_eq_left c9085, min_self, min_eq_right c9085]
  have hidx : idxOfFirstMin ([8100, 900, 900, 8100] : List ℚ) = 1 := by
    simp only [idxOfFirstMin]
    rw [hm2, if_neg c8109, hm3, if_pos le_rfl]
  have htime : (predictCollisionRisk varyOps cState1 cState2
      240).2.2.timeToClosestApproach = 60 := by
    rw [predict_time varyOps cState1 cState2 240 (by rw [hl]; simp), hl, hidx]
    norm_num
  rintro ⟨h1, i, d, hget, hdmin, ht⟩
  rw [htime] at ht
  have hi : (i : ℚ) = 0 := by linarith
  have hi0 : i = 0 := by exact_mod_cast hi
  subst hi0
  rw [hl] at hget hdmin
  cases hget
  rw [hmin] at hdmin
  rw [WithTop.coe_eq_coe] at hdmin
  norm_num at hdmin

/-- Claim C3 (confirmed): the collision estimator classifies the sampled
minimum distance d with exactly the fixed thresholds — d < 1 km gives risk
high with probability 0.001, 1 ≤ d < 5 km gives medium with 0.0001, and
d ≥ 5 km gives low with 0.00001; in particular a sampled minimum distance
of 0.7 km over a 3600 s horizon gives high and 0.001. -/
theorem c3_risk_thresholds [FloorRing α] (ops : MathOps α)
    (s1 s2 : SimState α) (H : α) :
    ((predictCollisionRisk ops s1 s2 H).2.2.minDistance < 1 →
      (predictCollisionRisk ops s1 s2 H).2.2.risk = Risk.high ∧
      (predictCollisionRisk ops s1 s2 H).2.2.probability = 1 / 1000) ∧
    (1 ≤ (predictCollisionRisk ops s1 s2 H).2.2.minDistance →
      (predictCollisionRisk ops s1 s2 H).2.2.minDistance < 5 →
      (predictCollisionRisk ops s1 s2 H).2.2.risk = Risk.medium ∧
      (predictCollisionRisk ops s1 s2 H).2.2.probability = 1 / 10000) ∧
    (5 ≤ (predictCollisionRisk ops s1 s2 H).2.2.minDistance →
      (predictCollisionRisk ops s1 s2 H).2.2.risk = Risk.low ∧
      (predictCollisionRisk ops s1 s2 H).2.2.probability = 1 / 100000) ∧
    ((predictCollisionRisk ops s1 s2 3600).2.2.minDistance =
        ((7 / 10 : α) : WithTop α) →
      (predictCollisionRisk ops s1 s2 3600).2.2.risk = Risk.high ∧
      (predictCollisionRisk ops s1 s2 3600).2.2.probability = 1 / 1000) := by
  have hcl := predict_classification ops s1 s2 H
  have hcl36 := predict_classification ops s1 s2 3600
  refine ⟨?_, ?_, ?_, ?_⟩
  · intro h
    rw [if_pos h] at hcl
    exact ⟨congrArg Prod.fst hcl, congrArg Prod.snd hcl⟩
  · intro h1 h5
    rw [if_neg (not_lt.mpr h1), if_pos h5] at hcl
    exact ⟨congrArg Prod.fst hcl, congrArg Prod.snd hcl⟩
  · intro h5
    have h1 : ¬ (predictCollisionRisk ops s1 s2 H).2.2.minDistance < 1 := by
      intro hlt
      exact absurd (lt_of_le_of_lt h5 hlt) (by norm_num)
    rw [if_neg h1, if_neg (not_lt.mpr h5)] at hcl
    exact ⟨congrArg Prod.fst hcl, congrArg Prod.snd hcl⟩
  · intro heq
    have hlt : (predictCollisionRisk ops s1 s2 3600).2.2.minDistance < 1 := by
      rw [heq]
      rw [show (1 : WithTop α) = ((1 : α) : WithTop α) by norm_num,
        WithTop.coe_lt_coe]
      norm_num
    rw [if_pos hlt] at hcl36
    exact ⟨congrArg Prod.fst hcl36, congrArg Prod.snd hcl36⟩

/-- Claim C3, witness: the concrete 0.7 km scenario — two LEO propagators
whose sampled distances over the 3600 s horizon are constantly 0.7 km —
yields risk high with probability 0.001. -/
theorem c3_witness :
    (predictCollisionRisk lookupOps (mkSimulator lookupOps wSat1)
      (mkSimulator lookupOps wSat2) 3600).2.2.risk = Risk.high ∧
    (predictCollisionRisk lookupOps (mkSimulator lookupOps wSat1)
      (mkSimulator lookupOps wSat2) 3600).2.2.probability = 1 / 1000 := by
  have hel1 : (mkSimulator lookupOps wSat1).orbitalElements =
      calculateOrbitalElements lookupOps wSat1 := rfl
  have hel2 : (mkSimulator lookupOps wSat2).orbitalElements =
      calculateOrbitalElements lookupOps wSat2 := rfl
  have hflat := positionAt_flat lookupOps (fun _ => rfl) (fun _ => rfl)
    (fun _ _ => rfl)
  have hae1 : (calculateOrbitalElements lookupOps wSat1).semiMajorAxis =
      6421 ∧ (calculateOrbitalElements lookupOps wSat1).eccentricity =
      1 / 100 := by
    constructor <;>
      norm_num [calculateOrbitalElements, earthRadius, jsOr, wSat1]
  have hae2 : (calculateOrbitalElements lookupOps wSat2).semiMajorAxis =
      6421 + 70 / 99 ∧ (calculateOrbitalElements lookupOps
      wSat2).eccentricity = 1 / 100 := by
    constructor <;>
      norm_num [calculateOrbitalElements, earthRadius, jsOr, wSat2]
  have hp1 : ∀ t : ℚ, positionAt lookupOps
      (mkSimulator lookupOps wSat1).orbitalElements t =
      { x := 6421 * (99 / 100), y := 0, z := 0 } := by
    intro t
    rw [hel1, hflat, hae1.1, hae1.2]
    norm_num
  have hp2 : ∀ t : ℚ, positionAt lookupOps
      (mkSimulator lookupOps wSat2).orbitalElements t =
      { x := (6421 + 70 / 99) * (99 / 100), y := 0, z := 0 } := by
    intro t
    rw [hel2, hflat, hae2.1, hae2.2]
    norm_num
  have hfuel : crFuel (3600 : ℚ) = 60 := by norm_num [crFuel]
  have hsd : sampledDistances lookupOps (crFuel (3600 : ℚ))
      (mkSimulator lookupOps wSat1) (mkSimulator lookupOps wSat2) =
      List.replicate 60 (7 / 10 : ℚ) := by
    rw [sampledDistances_const lookupOps _ _ (crFuel (3600 : ℚ)) _ _ hp1 hp2,
      hfuel]
    norm_num [lookupOps]
  have hmin : (predictCollisionRisk lookupOps (mkSimulator lookupOps wSat1)
      (mkSimulator lookupOps wSat2) 3600).2.2.minDistance =
      ((7 / 10 : ℚ) : WithTop ℚ) := by
    rw [predict_minDistance, hsd, listMin_replicate _ 60 (by norm_num)]
  exact (c3_risk_thresholds lookupOps (mkSimulator lookupOps wSat1)
    (mkSimulator lookupOps wSat2) 3600).2.2.2 hmin

/-- Claim C9 (confirmed): after `predictCollisionRisk` over a horizon that
is a positive multiple of 60 s, both propagators' elapsed times have grown
by exactly the horizon, their stored positions are the propagated positions
at those advanced times, and no other field (satellite record, velocity,
element set) of either propagator has changed — the estimator mutates its
inputs and does not restore them. -/
theorem c9_estimator_mutates [FloorRing α] (ops : MathOps α)
    (s1 s2 : SimState α) (k : ℕ) :
    (predictCollisionRisk ops s1 s2 (60 * ((k : α) + 1))).1.time =
      s1.time + 60 * ((k : α) + 1) ∧
    (predictCollisionRisk ops s1 s2 (60 * ((k : α) + 1))).2.1.time =
      s2.time + 60 * ((k : α) + 1) ∧
    (predictCollisionRisk ops s1 s2 (60 * ((k : α) + 1))).1.position =
      positionAt ops s1.orbitalElements (s1.time + 60 * ((k : α) + 1)) ∧
    (predictCollisionRisk ops s1 s2 (60 * ((k : α) + 1))).2.1.position =
      positionAt ops s2.orbitalElements (s2.time + 60 * ((k : α) + 1)) ∧
    (predictCollisionRisk ops s1 s2 (60 * ((k : α) + 1))).1.satellite =
      s1.satellite ∧
    (predictCollisionRisk ops s1 s2 (60 * ((k : α) + 1))).1.velocity =
      s1.velocity ∧
    (predictCollisionRisk ops s1 s2 (60 * ((k : α) + 1))).1.orbitalElements =
      s1.orbitalElements ∧
    (predictCollisionRisk ops s1 s2 (60 * ((k : α) + 1))).2.1.satellite =
      s2.satellite ∧
    (predictCollisionRisk ops s1 s2 (60 * ((k : α) + 1))).2.1.velocity =
      s2.velocity ∧
    (predictCollisionRisk ops s1 s2 (60 * ((k : α) + 1))).2.1.orbitalElements =
      s2.orbitalElements := by
  obtain ⟨h1, h2⟩ := predict_states ops s1 s2 (60 * ((k : α) + 1))
  rw [crFuel_mul_succ k] at h1 h2
  have hc : ((k + 1 : ℕ) : α) = (k : α) + 1 := by push_cast; ring
  refine ⟨?_, ?_, ?_, ?_, ?_, ?_, ?_, ?_, ?_, ?_⟩
  · rw [h1, advanceK_time, hc]
  · rw [h2, advanceK_time, hc]
  · rw [h1, advanceK_position]
  · rw [h2, advanceK_position]
  · rw [h1, advanceK_satellite]
  · rw [h1, advanceK_velocity]
  · rw [h1, advanceK_orbitalElements]
  · rw [h2, advanceK_satellite]
  · rw [h2, advanceK_velocity]
  · rw [h2, advanceK_orbitalElements]

/-- Claim C8 (corrected): the source performs no validation, so the
invariant (eccentricity ∈ [0,1), semi-major axis > 6371 km, mean motion
> 0) holds for initialization only under input conditions the code never
checks: positive altitude and any supplied eccentricity in [0,1) — and
given that π is positive and square roots of positives are positive.
Under those conditions initialization establishes the invariant; advance
changes neither element set nor satellite; reset re-establishes it from
the stored satellite; and a maneuver preserves it provided any replacement
element set also satisfies the input conditions after merging. -/
theorem c8_invariant_under_input_conditions (ops : MathOps α)
    (hops : SaneOps ops) :
    (∀ sat : Satellite α, SatOK sat →
      ElementsInvariant (calculateOrbitalElements ops sat)) ∧
    (∀ sat : Satellite α, SatOK sat →
      ElementsInvariant ((mkSimulator ops sat).orbitalElements)) ∧
    (∀ (st : SimState α) (dt : α),
      (calculatePosition ops st dt).orbitalElements = st.orbitalElements ∧
      (calculatePosition ops st dt).satellite = st.satellite) ∧
    (∀ st : SimState α, SatOK st.satellite →
      ElementsInvariant ((reset ops st).orbitalElements)) ∧
    (∀ (st : SimState α) (act : SuggestedAction α),
      ElementsInvariant st.orbitalElements →
      (∀ p q, act.parameters = some p → p.newOrbit = some q →
        ∀ v : α, SatOK (mergeSat { st.satellite with velocity := v } q)) →
      ElementsInvariant (executeAction ops st act).2.orbitalElements) := by
  refine ⟨calculateOrbitalElements_invariant ops hops, ?_, ?_, ?_, ?_⟩
  · intro sat hsat
    exact calculateOrbitalElements_invariant ops hops sat hsat
  · intro st dt
    exact ⟨rfl, rfl⟩
  · intro st hsat
    exact calculateOrbitalElements_invariant ops hops st.satellite hsat
  · intro st act hinv hmerge
    rcases act with ⟨_ | p⟩
    · exact hinv
    · rcases p with ⟨dv?, bd?, no?⟩
      rcases dv? with _ | dv
      · exact hinv
      · rcases bd? with _ | bd
        · exact hinv
        · by_cases hz : dv = 0 ∨ bd = 0
          · simpa [executeAction, if_pos hz] using hinv
          · rcases hno : no? with _ | q
            · simpa [executeAction, if_neg hz, hno] using hinv
            · have hok := hmerge _ q rfl (by rw [hno])
              simp only [executeAction, if_neg hz, hno]
              exact calculateOrbitalElements_invariant ops hops _ (hok _)

/-- Claim C8, counterexample: a structured element set with zero altitude
is accepted by initialization and yields a semi-major axis equal to (not
above) Earth's radius — the invariant as claimed fails with no input
validation. -/
theorem c8_counterexample :
    ¬ ElementsInvariant (calculateOrbitalElements qOps zeroAltSat) := by
  intro h
  have ha := h.2.2.1
  rw [calculateOrbitalElements_semiMajorAxis] at ha
  norm_num [zeroAltSat, earthRadius] at ha

/-- Claim C8, witness: the invariant established concretely for a LEO
satellite at 50 km altitude with eccentricity 0.01 under concrete sane
operations. -/
theorem c8_witness : ElementsInvariant (calculateOrbitalElements qOps wSat1) := by
  have hops : SaneOps qOps := by
    constructor
    · norm_num [qOps]
    · intro x hx
      simpa [qOps] using hx
  have hsat : SatOK wSat1 := by
    constructor
    · norm_num [wSat1]
    · intro q hq
      rw [show wSat1.eccentricity = some (1 / 100) from rfl] at hq
      cases hq
      norm_num
  exact (c8_invariant_under_input_conditions qOps hops).1 wSat1 hsat

/-- Claim C10 (confirmed): a simulator initialized from explicit orbital
elements, advanced any number of times without velocity recomputation,
still stores the zero velocity vector; `executeAction` with truthy deltaV
and burnDuration then reports success, while under IEEE-754 semantics the
velocity rescaling divides the new magnitude by the zero old magnitude
(giving ±∞) and multiplies each zero component by it, leaving every
velocity component NaN. -/
theorem c10_zero_velocity_nan_burn (ops : MathOps α) (sat : Satellite α)
    (k : ℕ) (dv bd : α) (q r : ℚ)
    (sqrtJ : JSModel.JSNum → JSModel.JSNum)
    (hdv : dv ≠ 0) (hbd : bd ≠ 0)
    (hsq : sqrtJ (JSModel.JSNum.fin 0) = JSModel.JSNum.fin 0)
    (hq : q ≠ 0) (hr : r ≠ 0) :
    (advanceK ops k (mkSimulator ops sat)).velocity =
      { x := 0, y := 0, z := 0 } ∧
    (executeAction ops (advanceK ops k (mkSimulator ops sat))
      { parameters := some
          { deltaV := some dv, burnDuration := some bd,
            newOrbit := none } }).1 = true ∧
    JSModel.executeBurn sqrtJ (JSModel.JSNum.fin 0) (JSModel.JSNum.fin 0)
      (JSModel.JSNum.fin 0) (JSModel.JSNum.fin q) (JSModel.JSNum.fin r) =
      (true, JSModel.JSNum.nan, JSModel.JSNum.nan, JSModel.JSNum.nan) := by
  refine ⟨?_, ?_, ?_⟩
  · rw [advanceK_velocity]; rfl
  · simp [executeAction, hdv, hbd]
  · have h1000 : q / 1000 ≠ 0 := div_ne_zero hq (by norm_num)
    by_cases hp : 0 < q / 1000
    · simp [JSModel.executeBurn, JSModel.truthy, JSModel.div, JSModel.mul,
        JSModel.add, hq, hr, hsq, h1000, hp, div_mul_cancel₀]
    · simp [JSModel.executeBurn, JSModel.truthy, JSModel.div, JSModel.mul,
        JSModel.add, hq, hr, hsq, h1000, hp, div_mul_cancel₀]

/-- Claim C10, witness: the theorem instantiated at concrete inputs — one
advance of a freshly constructed simulator, deltaV 5 m/s, burn 10 s. -/
theorem c10_witness :
    (advanceK qOps 1 (mkSimulator qOps dummySat)).velocity =
      { x := 0, y := 0, z := 0 } ∧
    (executeAction qOps (advanceK qOps 1 (mkSimulator qOps dummySat))
      { parameters := some
          { deltaV := some 5, burnDuration := some 10,
            newOrbit := none } }).1 = true ∧
    JSModel.executeBurn (fun _ => JSModel.JSNum.fin 0) (JSModel.JSNum.fin 0)
      (JSModel.JSNum.fin 0) (JSModel.JSNum.fin 0) (JSModel.JSNum.fin 5)
      (JSModel.JSNum.fin 10) =
      (true, JSModel.JSNum.nan, JSModel.JSNum.nan, JSModel.JSNum.nan) :=
  c10_zero_velocity_nan_burn qOps dummySat 1 5 10 5 10
    (fun _ => JSModel.JSNum.fin 0) (by norm_num) (by norm_num) rfl
    (by norm_num) (by norm_num)

end SatSim
